import Mathlib

/-!
Shallow embedding of `libcloud/compute/drivers/opsource.py` (the Opsource
cloud compute driver): the ElementTree element model and the `fixxpath`
namespace helper, the response error parser, the XML-to-record decoders,
the lazily cached `orgId` session protocol, and the operation facade.

Conventions of the embedding:
* Python `None` is `Option.none`; a field that may hold `None` is an `Option`.
* A Python exception escaping a function is modelled as a `none` result of an
  `Option`-returning function (the relevant exception here is the `ValueError`
  raised by `fixxpath` when the root tag carries no XML namespace, plus the
  `IndexError` of `list[-1]` on an empty list in `create_node`).
* The HTTP round trips are supplied as already decoded response bodies; the
  session/transport model records the ordered list of request paths issued.
-/

namespace Opsource

/-- An XML tag as ElementTree renders it.  A namespace-qualified tag is the
string `ns:name` with the namespace wrapped in braces; we keep it in parsed
form: `ns = some s` for a qualified tag, `ns = none` for a bare tag. -/
structure Tag where
  ns : Option String
  name : String
deriving DecidableEq

/-- An ElementTree element: tag, optional text, child elements. -/
inductive XmlElem where
  | mk : Tag → Option String → List XmlElem → XmlElem

def XmlElem.tag : XmlElem → Tag
  | .mk t _ _ => t

def XmlElem.text : XmlElem → Option String
  | .mk _ x _ => x

def XmlElem.children : XmlElem → List XmlElem
  | .mk _ _ c => c

/-- Python `"%s" % v` for a value that may be `None`: `None` prints as the
string `"None"`. -/
def pyStr : Option String → String
  | none => "None"
  | some s => s

/-- Python `str.split("/")` (the separator is the single character `/`),
written by structural recursion over the characters so it computes in the
kernel.  `"a/b" ↦ ["a", "b"]`, `"abc" ↦ ["abc"]`, `"" ↦ [""]`. -/
def splitSlashAux : List Char → List Char → List String
  | [], acc => [String.mk acc.reverse]
  | c :: cs, acc =>
    if c = '/' then String.mk acc.reverse :: splitSlashAux cs []
    else splitSlashAux cs (c :: acc)

def splitOnSlash (s : String) : List String :=
  splitSlashAux s.data []

/-- `fixxpath(root, xpath)`: qualify every step of the `/`-separated `xpath`
with the namespace of `root`'s own tag.  In the Python source the root tag is
unpacked with `root.tag[1:].split("}", 1)`, which raises `ValueError` when the
tag carries no namespace; that exception is the `none` branch here.  The
qualified path string is kept in parsed form as a list of qualified tags. -/
def fixxpath (root : XmlElem) (xpath : String) : Option (List Tag) :=
  match root.tag.ns with
  | none => none
  | some nsp => some ((splitOnSlash xpath).map (fun e => ⟨some nsp, e⟩))

/-- `ElementTree.Element.find` on an already qualified path: the first element
reached by matching each step against child tags, in document order. -/
def findPath : List Tag → XmlElem → Option XmlElem
  | [], e => some e
  | t :: ts, e => e.children.findSome? (fun c => if c.tag = t then findPath ts c else none)

/-- The text `ElementTree.Element.findtext` returns for the first match of an
already qualified path: the element's text, with the empty string substituted
when the matched element has no text, and `none` when there is no match. -/
def textPath (steps : List Tag) (el : XmlElem) : Option String :=
  (findPath steps el).map (fun r => r.text.getD "")

/-- `element.findtext(fixxpath(element, xpath))`.  The outer `Option` is the
`ValueError` of `fixxpath` on a namespace-less root; the inner `Option` is
findtext's found-or-`None` result. -/
def findtextNS (e : XmlElem) (xpath : String) : Option (Option String) :=
  (fixxpath e xpath).map (fun steps => textPath steps e)

/-- `element.find(fixxpath(element, xpath))`, with the same two `Option`
layers as `findtextNS`. -/
def findNS (e : XmlElem) (xpath : String) : Option (Option XmlElem) :=
  (fixxpath e xpath).map (fun steps => findPath steps e)

/-! ### The vendor namespaces declared at the top of the source file -/

def NAMESPACE_BASE : String := "http://oec.api.opsource.net/schemas"

def ORGANIZATION_NS : String := NAMESPACE_BASE ++ "/organization"

def SERVER_NS : String := NAMESPACE_BASE ++ "/server"

def NETWORK_NS : String := NAMESPACE_BASE ++ "/network"

def DIRECTORY_NS : String := NAMESPACE_BASE ++ "/directory"

def DATACENTER_NS : String := NAMESPACE_BASE ++ "/datacenter"

def GENERAL_NS : String := NAMESPACE_BASE ++ "/general"

/-! ### Result records -/

/-- The two run states the driver assigns (the enum has further members in the
host framework; this driver only ever produces these two). -/
inductive NodeState where
  | RUNNING
  | REBOOTING
  | TERMINATED
  | PENDING
  | UNKNOWN
deriving DecidableEq

/-- `OpsourceStatus.__init__`: every keyword argument defaults to `None`. -/
structure OpsourceStatus where
  action : Option String := none
  requestTime : Option String := none
  userName : Option String := none
  numberOfSteps : Option String := none
  updateTime : Option String := none
  step_name : Option String := none
  step_number : Option String := none
  step_percentComplete : Option String := none
  failureReason : Option String := none
deriving DecidableEq

structure NodeLocation where
  id : Option String
  name : Option String
  country : Option String
deriving DecidableEq

/-- The `extra` dictionary `_to_node` builds (the duplicated `networkId` key
in the source dictionary literal collapses to a single entry). -/
structure NodeExtra where
  description : Option String
  sourceImageId : Option String
  networkId : Option String
  machineName : Option String
  deployedTime : Option String
  cpuCount : Option String
  memoryMb : Option String
  osStorageGb : Option String
  additionalLocalStorageGb : Option String
  OS_type : Option String
  OS_displayName : Option String
  status : OpsourceStatus
deriving DecidableEq

structure Node where
  id : Option String
  name : Option String
  state : NodeState
  public_ip : String
  private_ip : Option String
  extra : NodeExtra
deriving DecidableEq

/-- `OpsourceNetwork.__init__` applies `str(...)` to `id`, so a `None` id
becomes the string `"None"`; `privateNet` is stored exactly as passed. -/
structure OpsourceNetwork where
  id : String
  name : Option String
  description : Option String
  location : Option (List NodeLocation)
  privateNet : Option String
  multicast : Bool
  status : OpsourceStatus
deriving DecidableEq

/-! ### XML mapper -/

/-- `_to_status`: an absent element yields the all-default `OpsourceStatus()`;
a present element is read field by field.  `updateTime` is never read. -/
def _to_status : Option XmlElem → Option OpsourceStatus
  | none => some {}
  | some element => do
    let action ← findtextNS element "action"
    let requestTime ← findtextNS element "requestTime"
    let userName ← findtextNS element "userName"
    let numberOfSteps ← findtextNS element "numberOfSteps"
    let step_name ← findtextNS element "step/name"
    let step_number ← findtextNS element "step/number"
    let step_percentComplete ← findtextNS element "step/percentComplete"
    let failureReason ← findtextNS element "failureReason"
    some { action := action, requestTime := requestTime, userName := userName,
           numberOfSteps := numberOfSteps, step_name := step_name,
           step_number := step_number, step_percentComplete := step_percentComplete,
           failureReason := failureReason }

/-- The `extra` dictionary built inside `_to_node`. -/
def _to_node_extra (element : XmlElem) (status : OpsourceStatus) : Option NodeExtra := do
  let description ← findtextNS element "description"
  let sourceImageId ← findtextNS element "sourceImageId"
  let networkId ← findtextNS element "networkId"
  let machineName ← findtextNS element "machineName"
  let deployedTime ← findtextNS element "deployedTime"
  let cpuCount ← findtextNS element "machineSpecification/cpuCount"
  let memoryMb ← findtextNS element "machineSpecification/memoryMb"
  let osStorageGb ← findtextNS element "machineSpecification/osStorageGb"
  let additionalLocalStorageGb ← findtextNS element "machineSpecification/additionalLocalStorageGb"
  let OS_type ← findtextNS element "machineSpecification/operatingSystem/type"
  let OS_displayName ← findtextNS element "machineSpecification/operatingSystem/displayName"
  some { description := description, sourceImageId := sourceImageId,
         networkId := networkId, machineName := machineName,
         deployedTime := deployedTime, cpuCount := cpuCount,
         memoryMb := memoryMb, osStorageGb := osStorageGb,
         additionalLocalStorageGb := additionalLocalStorageGb,
         OS_type := OS_type, OS_displayName := OS_displayName,
         status := status }

/-- `_to_node`. -/
def _to_node (element : XmlElem) : Option Node := do
  let isStarted ← findtextNS element "isStarted"
  let state := if isStarted == some "true" then NodeState.RUNNING else NodeState.TERMINATED
  let statusElem ← findNS element "status"
  let status ← _to_status statusElem
  let extra ← _to_node_extra element status
  let id ← findtextNS element "id"
  let name ← findtextNS element "name"
  let private_ip ← findtextNS element "privateIpAddress"
  some { id := id, name := name, state := state, public_ip := "unknown",
         private_ip := private_ip, extra := extra }

/-- `_to_location`. -/
def _to_location (element : XmlElem) : Option NodeLocation := do
  let id ← findtextNS element "location"
  let name ← findtextNS element "displayName"
  let country ← findtextNS element "country"
  some { id := id, name := name, country := country }

/-- `_to_network`.  The `self.list_locations()` HTTP round trip performed to
resolve the location reference is supplied as the already decoded `locations`
list; as in the source (Python 2 `filter`), the resolved `location` is the
whole sub-list of locations whose id equals the `location` text, and `None`
when the `location` text is absent. -/
def _to_network (locations : List NodeLocation) (element : XmlElem) :
    Option OpsourceNetwork := do
  let multicastText ← findtextNS element "multicast"
  let multicast := multicastText == some "true"
  let statusElem ← findNS element "status"
  let status ← _to_status statusElem
  let location_id ← findtextNS element "location"
  let location := location_id.map (fun lid => locations.filter (fun x => x.id == some lid))
  let id ← findtextNS element "id"
  let name ← findtextNS element "name"
  let description ← findtextNS element "description"
  let privateNet ← findtextNS element "privateNet"
  some { id := pyStr id, name := name, description := description, location := location,
         privateNet := privateNet, multicast := multicast, status := status }

/-! ### Response error parsing -/

/-- Outcome of `OpsourceResponse.parse_error`.  The Python method raises
`InvalidCredsError` and `MalformedResponseError` but returns the
`OpsourceAPIException` value, the raw body string (from the bare `except`
around the 400 branch) or `None` (fall-through); raised and returned outcomes
are modelled uniformly. -/
inductive ParseErrorOutcome where
  | invalidCreds (body : String)
  | malformedResponse (body : String)
  | apiException (code : Option String) (msg : Option String)
  | rawBody (body : String)
  | pyNone
deriving DecidableEq

/-- `OpsourceResponse.parse_error` as a function of the HTTP status, the raw
body string, and the result of `ET.XML(self.body)` (`none` when the body is
not well-formed XML). -/
def parse_error (status : Nat) (rawBody : String) (parsed : Option XmlElem) :
    ParseErrorOutcome :=
  if status = 401 then .invalidCreds rawBody
  else if status = 403 then .invalidCreds rawBody
  else
    match parsed with
    | none => .malformedResponse rawBody
    | some body =>
      if status = 400 then
        match findtextNS body "resultCode", findtextNS body "resultDetail" with
        | some code, some message => .apiException code message
        | _, _ => .rawBody rawBody
      else .pyNone

/-! ### Lifecycle operations (given the decoded response body) -/

/-- `reboot_node`: true iff the decoded `result` field equals `"SUCCESS"`. -/
def reboot_node (body : XmlElem) : Option Bool := do
  let result ← findtextNS body "result"
  some (result == some "SUCCESS")

/-- `destroy_node`. -/
def destroy_node (body : XmlElem) : Option Bool := do
  let result ← findtextNS body "result"
  some (result == some "SUCCESS")

/-- `ex_start_node`. -/
def ex_start_node (body : XmlElem) : Option Bool := do
  let result ← findtextNS body "result"
  some (result == some "SUCCESS")

/-- `ex_shutdown_graceful`. -/
def ex_shutdown_graceful (body : XmlElem) : Option Bool := do
  let result ← findtextNS body "result"
  some (result == some "SUCCESS")

/-- `ex_power_off`. -/
def ex_power_off (body : XmlElem) : Option Bool := do
  let result ← findtextNS body "result"
  some (result == some "SUCCESS")

def reboot_node_action (nodeId : String) : String := "/server/" ++ nodeId ++ "?restart"

def destroy_node_action (nodeId : String) : String := "/server/" ++ nodeId ++ "?delete"

def ex_start_node_action (nodeId : String) : String := "/server/" ++ nodeId ++ "?start"

def ex_shutdown_graceful_action (nodeId : String) : String := "/server/" ++ nodeId ++ "?shutdown"

def ex_power_off_action (nodeId : String) : String := "/server/" ++ nodeId ++ "?poweroff"

/-! ### Session / transport -/

def api_path : String := "/oec"

def api_version : String := "0.9"

/-- Session state of an `OpsourceConnection`: the lazily cached `_orgId` and
the ordered log of request paths handed to the underlying HTTP connection
(`super().request`). -/
structure ConnState where
  orgId : Option String
  log : List String
deriving DecidableEq

/-- `super(OpsourceConnection, self).request(action, ...)`: the raw HTTP send,
recorded in the log. -/
def rawRequest (action : String) (s : ConnState) : ConnState :=
  { s with log := s.log ++ [action] }

/-- `OpsourceConnection.request`: prefix the action with
`api_path/api_version/` and send; no account id is involved. -/
def request (action : String) (s : ConnState) : ConnState :=
  rawRequest (api_path ++ "/" ++ api_version ++ "/" ++ action) s

/-- `OpsourceConnection._get_orgId`; `bootstrapBody` is the decoded XML body
the `/myaccount` request would return.  When `_orgId` is unset, issue the
bootstrap request and cache `findtext(fixxpath(body, "orgId"))` (possibly
`None`, in which case the next call bootstraps again).  The outer `Option` is
`fixxpath`'s `ValueError` on a namespace-less bootstrap body. -/
def _get_orgId (bootstrapBody : XmlElem) (s : ConnState) :
    Option (Option String × ConnState) :=
  match s.orgId with
  | some v => some (some v, s)
  | none =>
    let s1 := request "/myaccount" s
    (findtextNS bootstrapBody "orgId").map (fun v => (v, { s1 with orgId := v }))

/-- `OpsourceConnection.get_resource_path`:
`api_path/api_version/orgId` (a `None` org id prints as `"None"`). -/
def get_resource_path (bootstrapBody : XmlElem) (s : ConnState) :
    Option (String × ConnState) :=
  (_get_orgId bootstrapBody s).map
    (fun p => (api_path ++ "/" ++ api_version ++ "/" ++ pyStr p.1, p.2))

/-- `OpsourceConnection.request_with_orgId`: prefix the action with the
resource path and send. -/
def request_with_orgId (bootstrapBody : XmlElem) (action : String) (s : ConnState) :
    Option ConnState :=
  (get_resource_path bootstrapBody s).map (fun p => rawRequest (p.1 ++ "/" ++ action) p.2)

/-! ### Operation facade: the request each operation issues -/

/-- `list_images` issues its single request through `connection.request`,
without the account id. -/
def list_images_request (s : ConnState) : ConnState :=
  request "/base/image" s

def list_nodes_deployed_request (bb : XmlElem) (s : ConnState) : Option ConnState :=
  request_with_orgId bb "/server/deployed" s

def list_nodes_pending_request (bb : XmlElem) (s : ConnState) : Option ConnState :=
  request_with_orgId bb "/server/pendingDeploy" s

def list_locations_request (bb : XmlElem) (s : ConnState) : Option ConnState :=
  request_with_orgId bb "/datacenter" s

def ex_list_networks_request (bb : XmlElem) (s : ConnState) : Option ConnState :=
  request_with_orgId bb "/networkWithLocation" s

def create_node_post_request (bb : XmlElem) (s : ConnState) : Option ConnState :=
  request_with_orgId bb "/server" s

def reboot_node_request (bb : XmlElem) (nodeId : String) (s : ConnState) : Option ConnState :=
  request_with_orgId bb (reboot_node_action nodeId) s

def destroy_node_request (bb : XmlElem) (nodeId : String) (s : ConnState) : Option ConnState :=
  request_with_orgId bb (destroy_node_action nodeId) s

def ex_start_node_request (bb : XmlElem) (nodeId : String) (s : ConnState) : Option ConnState :=
  request_with_orgId bb (ex_start_node_action nodeId) s

def ex_shutdown_graceful_request (bb : XmlElem) (nodeId : String) (s : ConnState) :
    Option ConnState :=
  request_with_orgId bb (ex_shutdown_graceful_action nodeId) s

def ex_power_off_request (bb : XmlElem) (nodeId : String) (s : ConnState) : Option ConnState :=
  request_with_orgId bb (ex_power_off_action nodeId) s

/-- The final step of `create_node`:
`filter(lambda x: x.name == name, self.list_nodes())[-1]`, as a function of
the post-creation listing.  Python's `[-1]` takes the last element and raises
`IndexError` on an empty list; the exception is the `none` branch here. -/
def create_node_select (name : String) (nodes : List Node) : Option Node :=
  (nodes.filter (fun x => x.name == some name)).getLast?

/-! ### Concrete fixtures used by witnesses and counterexamples -/

/-- A lifecycle response body under the server namespace whose result field
holds the given text. -/
def resultBody (res : String) : XmlElem :=
  .mk ⟨some SERVER_NS, "Server"⟩ none [.mk ⟨some SERVER_NS, "result"⟩ (some res) []]

/-- A decoded lifecycle response body whose root tag carries no namespace. -/
def bareResultBody : XmlElem :=
  .mk ⟨none, "Status"⟩ none [.mk ⟨none, "result"⟩ (some "FAILED") []]

/-- The bootstrap scenario body:
`<DirectoryAccount><orgId>abc-123</orgId></DirectoryAccount>` under the
directory namespace. -/
def dirAccountBody : XmlElem :=
  .mk ⟨some DIRECTORY_NS, "DirectoryAccount"⟩ none
    [.mk ⟨some DIRECTORY_NS, "orgId"⟩ (some "abc-123") []]

/-- The C5 scenario body, exactly as written in the spec: a `Status` root with
no XML namespace. -/
def bareStatusBody : XmlElem :=
  .mk ⟨none, "Status"⟩ none
    [.mk ⟨none, "resultCode"⟩ (some "REASON_400") [],
     .mk ⟨none, "resultDetail"⟩ (some "Bad request") []]

/-- The raw string form of `bareStatusBody`. -/
def bareStatusRaw : String :=
  "<Status><resultCode>REASON_400</resultCode><resultDetail>Bad request</resultDetail></Status>"

/-- The C5 scenario body under the vendor's general namespace. -/
def nsStatusBody : XmlElem :=
  .mk ⟨some GENERAL_NS, "Status"⟩ none
    [.mk ⟨some GENERAL_NS, "resultCode"⟩ (some "REASON_400") [],
     .mk ⟨some GENERAL_NS, "resultDetail"⟩ (some "Bad request") []]

/-- A fully populated operation-status element under the given namespace. -/
def statusDocUnder (nsp : String) : XmlElem :=
  .mk ⟨some nsp, "status"⟩ none
    [.mk ⟨some nsp, "action"⟩ (some "RebootServer") [],
     .mk ⟨some nsp, "requestTime"⟩ (some "2011-01-02T10:10:10") [],
     .mk ⟨some nsp, "userName"⟩ (some "testuser") [],
     .mk ⟨some nsp, "numberOfSteps"⟩ (some "5") [],
     .mk ⟨some nsp, "updateTime"⟩ (some "2011-01-02T10:11:12") [],
     .mk ⟨some nsp, "step"⟩ none
       [.mk ⟨some nsp, "name"⟩ (some "SHUTDOWN_SERVER") [],
        .mk ⟨some nsp, "number"⟩ (some "2") [],
        .mk ⟨some nsp, "percentComplete"⟩ (some "40") []],
     .mk ⟨some nsp, "failureReason"⟩ (some "") []]

/-- A network element whose `privateNet` text is the given value. -/
def networkElemPN (pn : String) : XmlElem :=
  .mk ⟨some NETWORK_NS, "network"⟩ none
    [.mk ⟨some NETWORK_NS, "id"⟩ (some "net-1") [],
     .mk ⟨some NETWORK_NS, "name"⟩ (some "default") [],
     .mk ⟨some NETWORK_NS, "privateNet"⟩ (some pn) [],
     .mk ⟨some NETWORK_NS, "multicast"⟩ (some "false") []]

/-- A deployed-server element whose `isStarted` text is the given value. -/
def serverElemIS (isv : String) : XmlElem :=
  .mk ⟨some SERVER_NS, "DeployedServer"⟩ none
    [.mk ⟨some SERVER_NS, "id"⟩ (some "srv-1") [],
     .mk ⟨some SERVER_NS, "name"⟩ (some "web1") [],
     .mk ⟨some SERVER_NS, "isStarted"⟩ (some isv) [],
     .mk ⟨some SERVER_NS, "privateIpAddress"⟩ (some "10.0.0.1") []]

/-- A bare test node record (only `id` and `name` vary). -/
def mkTestNode (i : String) (n : String) : Node :=
  { id := some i, name := some n, state := .RUNNING, public_ip := "unknown",
    private_ip := none,
    extra := { description := none, sourceImageId := none, networkId := none,
               machineName := none, deployedTime := none, cpuCount := none,
               memoryMb := none, osStorageGb := none, additionalLocalStorageGb := none,
               OS_type := none, OS_displayName := none, status := {} } }

/-- A session whose account id is already cached. -/
def cachedConn : ConnState := { orgId := some "abc-123", log := [] }

/-- A fresh session: no cached account id, empty request log. -/
def freshConn : ConnState := { orgId := none, log := [] }

/-- A status element whose root is under the server namespace but whose
children are under the network namespace. -/
def mixedStatusDoc : XmlElem :=
  .mk ⟨some SERVER_NS, "status"⟩ none
    [.mk ⟨some NETWORK_NS, "action"⟩ (some "RebootServer") [],
     .mk ⟨some NETWORK_NS, "failureReason"⟩ (some "boom") []]


/-- The record `_to_status` produces for a found-or-absent status element
whose own namespace is `nsp`; used to state the decoder equations. -/
def statusRecordOf (nsp : String) : Option XmlElem → OpsourceStatus
  | none => {}
  | some st =>
    { action := textPath [⟨some nsp, "action"⟩] st,
      requestTime := textPath [⟨some nsp, "requestTime"⟩] st,
      userName := textPath [⟨some nsp, "userName"⟩] st,
      numberOfSteps := textPath [⟨some nsp, "numberOfSteps"⟩] st,
      updateTime := none,
      step_name := textPath [⟨some nsp, "step"⟩, ⟨some nsp, "name"⟩] st,
      step_number := textPath [⟨some nsp, "step"⟩, ⟨some nsp, "number"⟩] st,
      step_percentComplete := textPath [⟨some nsp, "step"⟩, ⟨some nsp, "percentComplete"⟩] st,
      failureReason := textPath [⟨some nsp, "failureReason"⟩] st }

/-! ## Helper lemmas -/

theorem findtextNS_eq_textPath (e : XmlElem) (nsp : String) (xpath : String)
    (h : e.tag.ns = some nsp) :
    findtextNS e xpath =
      some (textPath ((splitOnSlash xpath).map (fun n => ⟨some nsp, n⟩)) e) := by
  simp [findtextNS, fixxpath, h]

theorem findNS_eq_findPath (e : XmlElem) (nsp : String) (xpath : String)
    (h : e.tag.ns = some nsp) :
    findNS e xpath = some (findPath ((splitOnSlash xpath).map (fun n => ⟨some nsp, n⟩)) e) := by
  simp [findNS, fixxpath, h]

/-- A single-step find only ever returns a child whose tag is the step. -/
theorem findPath_single_tag {t : Tag} {el st : XmlElem}
    (h : findPath [t] el = some st) : st.tag = t := by
  unfold findPath at h
  obtain ⟨c, _, hfc⟩ := List.exists_of_findSome?_eq_some h
  by_cases htag : c.tag = t
  · rw [if_pos htag] at hfc
    cases hfc
    exact htag
  · rw [if_neg htag] at hfc
    cases hfc

/-- A find whose first step matches no child tag returns nothing. -/
theorem findPath_cons_no_match {t : Tag} {ts : List Tag} {el : XmlElem}
    (h : ∀ c ∈ el.children, c.tag ≠ t) :
    findPath (t :: ts) el = none := by
  unfold findPath
  exact List.findSome?_eq_none_iff.mpr (fun c hc => by rw [if_neg (h c hc)])

/-- The `_to_status` equation for a namespace-qualified status element. -/
theorem _to_status_some_eq (el : XmlElem) (nsp : String) (h : el.tag.ns = some nsp) :
    _to_status (some el) = some (statusRecordOf nsp (some el)) := by
  simp [_to_status, findtextNS_eq_textPath el nsp _ h, statusRecordOf]
  repeat' apply And.intro
  all_goals rfl

/-- The `_to_status` equation applied to the result of looking up the single
`status` child under the root's namespace. -/
theorem _to_status_of_found (el : XmlElem) (nsp : String) :
    _to_status (findPath [⟨some nsp, "status"⟩] el) =
      some (statusRecordOf nsp (findPath [⟨some nsp, "status"⟩] el)) := by
  cases hf : findPath [⟨some nsp, "status"⟩] el with
  | none => rfl
  | some st =>
    have htag : st.tag = ⟨some nsp, "status"⟩ := findPath_single_tag hf
    exact _to_status_some_eq st nsp (by rw [htag])

/-- The `_to_network` equation for a namespace-qualified network element. -/
theorem _to_network_eq (locs : List NodeLocation) (el : XmlElem) (nsp : String)
    (h : el.tag.ns = some nsp) :
    _to_network locs el = some
      { id := pyStr (textPath [⟨some nsp, "id"⟩] el),
        name := textPath [⟨some nsp, "name"⟩] el,
        description := textPath [⟨some nsp, "description"⟩] el,
        location := (textPath [⟨some nsp, "location"⟩] el).map
          (fun lid => locs.filter (fun x => x.id == some lid)),
        privateNet := textPath [⟨some nsp, "privateNet"⟩] el,
        multicast := textPath [⟨some nsp, "multicast"⟩] el == some "true",
        status := statusRecordOf nsp (findPath [⟨some nsp, "status"⟩] el) } := by
  have est : (splitOnSlash "status").map (fun n => ({ ns := some nsp, name := n } : Tag)) =
      [⟨some nsp, "status"⟩] := rfl
  simp [_to_network, findtextNS_eq_textPath el nsp _ h, findNS_eq_findPath el nsp _ h, est,
    _to_status_of_found el nsp]
  repeat' apply And.intro
  all_goals rfl

/-- The `_to_node_extra` equation for a namespace-qualified server element. -/
theorem _to_node_extra_eq (el : XmlElem) (nsp : String) (status : OpsourceStatus)
    (h : el.tag.ns = some nsp) :
    _to_node_extra el status = some
      { description := textPath [⟨some nsp, "description"⟩] el,
        sourceImageId := textPath [⟨some nsp, "sourceImageId"⟩] el,
        networkId := textPath [⟨some nsp, "networkId"⟩] el,
        machineName := textPath [⟨some nsp, "machineName"⟩] el,
        deployedTime := textPath [⟨some nsp, "deployedTime"⟩] el,
        cpuCount := textPath [⟨some nsp, "machineSpecification"⟩, ⟨some nsp, "cpuCount"⟩] el,
        memoryMb := textPath [⟨some nsp, "machineSpecification"⟩, ⟨some nsp, "memoryMb"⟩] el,
        osStorageGb :=
          textPath [⟨some nsp, "machineSpecification"⟩, ⟨some nsp, "osStorageGb"⟩] el,
        additionalLocalStorageGb :=
          textPath [⟨some nsp, "machineSpecification"⟩,
            ⟨some nsp, "additionalLocalStorageGb"⟩] el,
        OS_type := textPath [⟨some nsp, "machineSpecification"⟩,
          ⟨some nsp, "operatingSystem"⟩, ⟨some nsp, "type"⟩] el,
        OS_displayName := textPath [⟨some nsp, "machineSpecification"⟩,
          ⟨some nsp, "operatingSystem"⟩, ⟨some nsp, "displayName"⟩] el,
        status := status } := by
  simp [_to_node_extra, findtextNS_eq_textPath el nsp _ h]
  repeat' apply And.intro
  all_goals rfl

/-- The `_to_node` equation for a namespace-qualified server element. -/
theorem _to_node_eq (el : XmlElem) (nsp : String) (h : el.tag.ns = some nsp) :
    _to_node el = some
      { id := textPath [⟨some nsp, "id"⟩] el,
        name := textPath [⟨some nsp, "name"⟩] el,
        state := if textPath [⟨some nsp, "isStarted"⟩] el == some "true"
          then NodeState.RUNNING else NodeState.TERMINATED,
        public_ip := "unknown",
        private_ip := textPath [⟨some nsp, "privateIpAddress"⟩] el,
        extra :=
          { description := textPath [⟨some nsp, "description"⟩] el,
            sourceImageId := textPath [⟨some nsp, "sourceImageId"⟩] el,
            networkId := textPath [⟨some nsp, "networkId"⟩] el,
            machineName := textPath [⟨some nsp, "machineName"⟩] el,
            deployedTime := textPath [⟨some nsp, "deployedTime"⟩] el,
            cpuCount :=
              textPath [⟨some nsp, "machineSpecification"⟩, ⟨some nsp, "cpuCount"⟩] el,
            memoryMb :=
              textPath [⟨some nsp, "machineSpecification"⟩, ⟨some nsp, "memoryMb"⟩] el,
            osStorageGb :=
              textPath [⟨some nsp, "machineSpecification"⟩, ⟨some nsp, "osStorageGb"⟩] el,
            additionalLocalStorageGb :=
              textPath [⟨some nsp, "machineSpecification"⟩,
                ⟨some nsp, "additionalLocalStorageGb"⟩] el,
            OS_type := textPath [⟨some nsp, "machineSpecification"⟩,
              ⟨some nsp, "operatingSystem"⟩, ⟨some nsp, "type"⟩] el,
            OS_displayName := textPath [⟨some nsp, "machineSpecification"⟩,
              ⟨some nsp, "operatingSystem"⟩, ⟨some nsp, "displayName"⟩] el,
            status := statusRecordOf nsp (findPath [⟨some nsp, "status"⟩] el) } } := by
  have est : (splitOnSlash "status").map (fun n => ({ ns := some nsp, name := n } : Tag)) =
      [⟨some nsp, "status"⟩] := rfl
  simp [_to_node, findtextNS_eq_textPath el nsp _ h, findNS_eq_findPath el nsp _ h, est,
    _to_status_of_found el nsp, _to_node_extra_eq el nsp _ h]
  repeat' apply And.intro
  all_goals rfl

/-! ## Theorems -/

/-- Claim C4: for every HTTP response with status 401 or 403, `parse_error`
fails with the invalid-credentials error, for every body content, whether or
not the body is parseable XML. -/
theorem parse_error_invalid_creds (status : Nat) (rawBody : String)
    (parsed : Option XmlElem) (h : status = 401 ∨ status = 403) :
    parse_error status rawBody parsed = .invalidCreds rawBody := by
  cases h with
  | inl h => subst h; rfl
  | inr h => subst h; rfl

/-- Witness for C4 at a concrete input: a 401 response whose body is not even
parseable XML yields the invalid-credentials error. -/
theorem parse_error_invalid_creds_witness :
    parse_error 401 "not xml" none = .invalidCreds "not xml" :=
  parse_error_invalid_creds 401 "not xml" none (Or.inl rfl)

/-- Claim C2: the node `create_node` returns is the last entry, in
post-creation listing order, of the listing filtered to nodes carrying the
requested name: whenever the listing decomposes as `xs ++ a :: (ys ++ b :: zs)`
with `a` and `b` both named `name` and nothing in `zs` named `name`, the
selected node is `b` — in particular, with two nodes of the requested name the
second one is returned. -/
theorem create_node_select_last_match (name : String) (xs ys zs : List Node) (a b : Node)
    (ha : a.name = some name) (hb : b.name = some name)
    (hz : ∀ n ∈ zs, n.name ≠ some name) :
    create_node_select name (xs ++ a :: (ys ++ b :: zs)) = some b := by
  have hfz : zs.filter (fun x => x.name == some name) = [] :=
    List.filter_eq_nil_iff.mpr (fun n hn => by simpa using hz n hn)
  unfold create_node_select
  simp only [List.filter_append, List.filter_cons, ha, hb, hfz, beq_self_eq_true,
    if_pos, ite_true]
  have hassoc :
      xs.filter (fun x => x.name == some name) ++
        a :: (ys.filter (fun x => x.name == some name) ++ [b]) =
      (xs.filter (fun x => x.name == some name) ++
        a :: ys.filter (fun x => x.name == some name)) ++ [b] := by
    simp
  rw [hassoc, List.getLast?_concat]

/-- Witness for C2 at a concrete listing: creating `"web1"` when the
post-creation listing holds two nodes named `"web1"` returns the second one. -/
theorem create_node_select_last_match_witness :
    create_node_select "web1"
      ([mkTestNode "0" "db1"] ++ mkTestNode "1" "web1" ::
        ([] ++ mkTestNode "2" "web1" :: [mkTestNode "3" "app1"])) =
      some (mkTestNode "2" "web1") :=
  create_node_select_last_match "web1" [mkTestNode "0" "db1"] [] [mkTestNode "3" "app1"]
    (mkTestNode "1" "web1") (mkTestNode "2" "web1") rfl rfl (by decide)

/-- Claim C10: `create_node` is partial in its final step — when the
post-creation listing holds no node with the requested name, the Python `[-1]`
indexing raises `IndexError` (modelled `none`): no node record is returned. -/
theorem create_node_select_no_match_fails (name : String) (nodes : List Node)
    (h : ∀ n ∈ nodes, n.name ≠ some name) :
    create_node_select name nodes = none := by
  unfold create_node_select
  have hfe : nodes.filter (fun x => x.name == some name) = [] :=
    List.filter_eq_nil_iff.mpr (fun n hn => by simpa using h n hn)
  simp [hfe]

/-- Witness for C10 at a concrete listing with no matching name. -/
theorem create_node_select_no_match_fails_witness :
    create_node_select "web1" [mkTestNode "0" "db1"] = none :=
  create_node_select_no_match_fails "web1" [mkTestNode "0" "db1"] (by decide)

/-- Claim C1 counterexample: on the decoded response body
`<Status><result>FAILED</result></Status>` — whose root tag carries no XML
namespace — `reboot_node` raises the `ValueError` of `fixxpath` (modelled
`none`): it returns neither false nor true, contradicting the claim that every
decoded body with a result other than `"SUCCESS"` yields false with no error. -/
theorem reboot_node_bare_root_raises :
    reboot_node bareResultBody = none ∧ reboot_node bareResultBody ≠ some false := by
  decide

/-- Claim C1 (amended): for every decoded response body whose root element is
namespace qualified, each of the five lifecycle operations returns true iff
the decoded result field equals `"SUCCESS"`, returns false without raising for
every other value (including an absent result field), and all five operations
treat the body identically.  (A decoded body whose root tag carries no
namespace instead raises out of `fixxpath`.) -/
theorem lifecycle_true_iff_SUCCESS (body : XmlElem) (nsp : String)
    (h : body.tag.ns = some nsp) :
    (reboot_node body = some true ↔
        textPath [⟨some nsp, "result"⟩] body = some "SUCCESS") ∧
    (textPath [⟨some nsp, "result"⟩] body ≠ some "SUCCESS" →
        reboot_node body = some false) ∧
    destroy_node body = reboot_node body ∧
    ex_start_node body = reboot_node body ∧
    ex_shutdown_graceful body = reboot_node body ∧
    ex_power_off body = reboot_node body := by
  have hr : findtextNS body "result" = some (textPath [⟨some nsp, "result"⟩] body) := by
    simp [findtextNS, fixxpath, h]
    rfl
  refine ⟨?_, ?_, ?_, ?_, ?_, ?_⟩
  · simp [reboot_node, hr]
  · intro hne
    simp [reboot_node, hr]
    exact hne
  · simp [destroy_node, reboot_node]
  · simp [ex_start_node, reboot_node]
  · simp [ex_shutdown_graceful, reboot_node]
  · simp [ex_power_off, reboot_node]

/-- Witness for the amended C1 at the spec's scenario: a reboot response with
result `"FAILED"` under the server namespace yields false, raising nothing. -/
theorem lifecycle_true_iff_SUCCESS_witness :
    ((reboot_node (resultBody "FAILED") = some true ↔
        textPath [⟨some SERVER_NS, "result"⟩] (resultBody "FAILED") = some "SUCCESS") ∧
      (textPath [⟨some SERVER_NS, "result"⟩] (resultBody "FAILED") ≠ some "SUCCESS" →
        reboot_node (resultBody "FAILED") = some false) ∧
      destroy_node (resultBody "FAILED") = reboot_node (resultBody "FAILED") ∧
      ex_start_node (resultBody "FAILED") = reboot_node (resultBody "FAILED") ∧
      ex_shutdown_graceful (resultBody "FAILED") = reboot_node (resultBody "FAILED") ∧
      ex_power_off (resultBody "FAILED") = reboot_node (resultBody "FAILED")) ∧
    reboot_node (resultBody "FAILED") = some false :=
  ⟨lifecycle_true_iff_SUCCESS (resultBody "FAILED") SERVER_NS rfl,
   (lifecycle_true_iff_SUCCESS (resultBody "FAILED") SERVER_NS rfl).2.1 (by decide)⟩

/-- Claim C5 counterexample: the claim's own scenario — status 400 with the
parseable body `<Status><resultCode>REASON_400</resultCode><resultDetail>Bad
request</resultDetail></Status>` — does not produce the ApiError: the root tag
carries no namespace, so `fixxpath` raises inside the `try` of `parse_error`
and the raw body string is returned instead; and a 500 response with a
parseable vendor error body also produces no ApiError, since only status 400
enters the ApiError branch. -/
theorem parse_error_scenario_no_apiException :
    parse_error 400 bareStatusRaw (some bareStatusBody) = .rawBody bareStatusRaw ∧
    parse_error 400 bareStatusRaw (some bareStatusBody) ≠
      .apiException (some "REASON_400") (some "Bad request") ∧
    parse_error 500 bareStatusRaw (some nsStatusBody) = .pyNone := by
  decide

/-- Claim C5 (amended): on HTTP 400, when the parseable body's root element is
namespace qualified, `parse_error` produces the `OpsourceAPIException`
carrying the vendor result-code and result-detail looked up under the root's
own namespace; a 400 body with an unqualified root yields the raw body string,
and every non-2xx status other than 400/401/403 yields no structured error. -/
theorem parse_error_400_apiException (status : Nat) (rawBody : String) (body : XmlElem)
    (nsp : String) :
    (body.tag.ns = some nsp →
      parse_error 400 rawBody (some body) =
        .apiException (textPath [⟨some nsp, "resultCode"⟩] body)
          (textPath [⟨some nsp, "resultDetail"⟩] body)) ∧
    (body.tag.ns = none → parse_error 400 rawBody (some body) = .rawBody rawBody) ∧
    (status ≠ 400 → status ≠ 401 → status ≠ 403 →
      parse_error status rawBody (some body) = .pyNone) := by
  refine ⟨?_, ?_, ?_⟩
  · intro h
    simp [parse_error, findtextNS, fixxpath, h]
    constructor <;> rfl
  · intro h
    simp [parse_error, findtextNS, fixxpath, h]
  · intro h1 h2 h3
    simp [parse_error, h1, h2, h3]

/-- Witness for the amended C5: the scenario body under the vendor's general
namespace yields the ApiError with code `"REASON_400"` and detail
`"Bad request"`; status 500 yields no structured error. -/
theorem parse_error_400_apiException_witness :
    parse_error 400 bareStatusRaw (some nsStatusBody) =
      .apiException (some "REASON_400") (some "Bad request") ∧
    parse_error 500 bareStatusRaw (some nsStatusBody) = .pyNone := by
  constructor
  · have h := (parse_error_400_apiException 400 bareStatusRaw nsStatusBody GENERAL_NS).1 rfl
    rw [h]
    decide
  · exact (parse_error_400_apiException 500 bareStatusRaw nsStatusBody GENERAL_NS).2.2
      (by decide) (by decide) (by decide)

/-- Claim C6 counterexample: `list_images` is issued through the short,
account-less prefix — with account id `"abc-123"` cached, the path sent is
`/oec/0.9//base/image`, which does not start with `/oec/0.9/abc-123/`. -/
theorem list_images_no_account_path :
    (list_images_request cachedConn).log = ["/oec/0.9//base/image"] ∧
    "/oec/0.9/abc-123/".data.isPrefixOf "/oec/0.9//base/image".data = false := by
  decide

/-- Claim C6 (amended): with the account identifier resolved, every
account-scoped operation — the two node listings, locations, networks, the
creation POST and the five lifecycle verbs — issues its single request on the
path `api_path/api_version/accountId/action`, while the bootstrap call and
`list_images` are issued on the shorter `api_path/api_version/action`, with no
account id in the path. -/
theorem request_path_prefixes (bb : XmlElem) (v nodeId : String) (s : ConnState)
    (h : s.orgId = some v) :
    list_nodes_deployed_request bb s =
      some { s with log := s.log ++ ["/oec/0.9/" ++ v ++ "/" ++ "/server/deployed"] } ∧
    list_nodes_pending_request bb s =
      some { s with log := s.log ++ ["/oec/0.9/" ++ v ++ "/" ++ "/server/pendingDeploy"] } ∧
    list_locations_request bb s =
      some { s with log := s.log ++ ["/oec/0.9/" ++ v ++ "/" ++ "/datacenter"] } ∧
    ex_list_networks_request bb s =
      some { s with log := s.log ++ ["/oec/0.9/" ++ v ++ "/" ++ "/networkWithLocation"] } ∧
    create_node_post_request bb s =
      some { s with log := s.log ++ ["/oec/0.9/" ++ v ++ "/" ++ "/server"] } ∧
    reboot_node_request bb nodeId s =
      some { s with log := s.log ++ ["/oec/0.9/" ++ v ++ "/" ++ reboot_node_action nodeId] } ∧
    destroy_node_request bb nodeId s =
      some { s with log := s.log ++ ["/oec/0.9/" ++ v ++ "/" ++ destroy_node_action nodeId] } ∧
    ex_start_node_request bb nodeId s =
      some { s with log := s.log ++ ["/oec/0.9/" ++ v ++ "/" ++ ex_start_node_action nodeId] } ∧
    ex_shutdown_graceful_request bb nodeId s =
      some { s with
        log := s.log ++ ["/oec/0.9/" ++ v ++ "/" ++ ex_shutdown_graceful_action nodeId] } ∧
    ex_power_off_request bb nodeId s =
      some { s with log := s.log ++ ["/oec/0.9/" ++ v ++ "/" ++ ex_power_off_action nodeId] } ∧
    list_images_request s = { s with log := s.log ++ ["/oec/0.9/" ++ "/base/image"] } ∧
    request "/myaccount" s = { s with log := s.log ++ ["/oec/0.9/" ++ "/myaccount"] } := by
  refine ⟨?_, ?_, ?_, ?_, ?_, ?_, ?_, ?_, ?_, ?_, ?_, ?_⟩ <;>
    simp [list_nodes_deployed_request, list_nodes_pending_request, list_locations_request,
      ex_list_networks_request, create_node_post_request, reboot_node_request,
      destroy_node_request, ex_start_node_request, ex_shutdown_graceful_request,
      ex_power_off_request, list_images_request, request_with_orgId, get_resource_path,
      _get_orgId, request, rawRequest, api_path, api_version, pyStr, h]

/-- Witness for the amended C6 with the account id `"abc-123"` cached and node
id `"42"`. -/
theorem request_path_prefixes_witness :
    list_nodes_deployed_request dirAccountBody cachedConn =
      some { cachedConn with
        log := cachedConn.log ++ ["/oec/0.9/" ++ "abc-123" ++ "/" ++ "/server/deployed"] } ∧
    list_nodes_pending_request dirAccountBody cachedConn =
      some { cachedConn with
        log := cachedConn.log ++ ["/oec/0.9/" ++ "abc-123" ++ "/" ++ "/server/pendingDeploy"] } ∧
    list_locations_request dirAccountBody cachedConn =
      some { cachedConn with
        log := cachedConn.log ++ ["/oec/0.9/" ++ "abc-123" ++ "/" ++ "/datacenter"] } ∧
    ex_list_networks_request dirAccountBody cachedConn =
      some { cachedConn with
        log := cachedConn.log ++ ["/oec/0.9/" ++ "abc-123" ++ "/" ++ "/networkWithLocation"] } ∧
    create_node_post_request dirAccountBody cachedConn =
      some { cachedConn with
        log := cachedConn.log ++ ["/oec/0.9/" ++ "abc-123" ++ "/" ++ "/server"] } ∧
    reboot_node_request dirAccountBody "42" cachedConn =
      some { cachedConn with
        log := cachedConn.log ++ ["/oec/0.9/" ++ "abc-123" ++ "/" ++ reboot_node_action "42"] } ∧
    destroy_node_request dirAccountBody "42" cachedConn =
      some { cachedConn with
        log := cachedConn.log ++ ["/oec/0.9/" ++ "abc-123" ++ "/" ++ destroy_node_action "42"] } ∧
    ex_start_node_request dirAccountBody "42" cachedConn =
      some { cachedConn with
        log := cachedConn.log ++ ["/oec/0.9/" ++ "abc-123" ++ "/" ++ ex_start_node_action "42"] } ∧
    ex_shutdown_graceful_request dirAccountBody "42" cachedConn =
      some { cachedConn with
        log := cachedConn.log ++
          ["/oec/0.9/" ++ "abc-123" ++ "/" ++ ex_shutdown_graceful_action "42"] } ∧
    ex_power_off_request dirAccountBody "42" cachedConn =
      some { cachedConn with
        log := cachedConn.log ++ ["/oec/0.9/" ++ "abc-123" ++ "/" ++ ex_power_off_action "42"] } ∧
    list_images_request cachedConn =
      { cachedConn with log := cachedConn.log ++ ["/oec/0.9/" ++ "/base/image"] } ∧
    request "/myaccount" cachedConn =
      { cachedConn with log := cachedConn.log ++ ["/oec/0.9/" ++ "/myaccount"] } :=
  request_path_prefixes dirAccountBody "abc-123" "42" cachedConn rfl

/-- Claim C3: in a session whose bootstrap body carries an org id, the first
account-scoped request issues exactly the `/myaccount` bootstrap request
followed by the account-scoped request itself, whose path embeds the parsed
org id; a second account-scoped request started from the resulting state
issues only its own request — the cached id is reused and the bootstrap is not
re-issued. -/
theorem orgId_bootstrap_once (bb : XmlElem) (v a1 a2 : String)
    (h : findtextNS bb "orgId" = some (some v)) :
    request_with_orgId bb a1 freshConn =
      some ⟨some v, ["/oec/0.9//myaccount", "/oec/0.9/" ++ v ++ "/" ++ a1]⟩ ∧
    request_with_orgId bb a2
        ⟨some v, ["/oec/0.9//myaccount", "/oec/0.9/" ++ v ++ "/" ++ a1]⟩ =
      some ⟨some v, ["/oec/0.9//myaccount", "/oec/0.9/" ++ v ++ "/" ++ a1,
                     "/oec/0.9/" ++ v ++ "/" ++ a2]⟩ := by
  constructor
  · simp [request_with_orgId, get_resource_path, _get_orgId, freshConn, request,
      rawRequest, api_path, api_version, pyStr, h]
  · simp [request_with_orgId, get_resource_path, _get_orgId, request,
      rawRequest, api_path, api_version, pyStr]

/-- Witness for C3 at the spec's scenario: the bootstrap body holds org id
`"abc-123"`; the first call hits `/myaccount` then a path containing
`abc-123`; the second call adds only its own path. -/
theorem orgId_bootstrap_once_witness :
    request_with_orgId dirAccountBody "/server/deployed" freshConn =
      some ⟨some "abc-123",
        ["/oec/0.9//myaccount", "/oec/0.9/" ++ "abc-123" ++ "/" ++ "/server/deployed"]⟩ ∧
    request_with_orgId dirAccountBody "/datacenter"
        ⟨some "abc-123",
          ["/oec/0.9//myaccount", "/oec/0.9/" ++ "abc-123" ++ "/" ++ "/server/deployed"]⟩ =
      some ⟨some "abc-123",
        ["/oec/0.9//myaccount", "/oec/0.9/" ++ "abc-123" ++ "/" ++ "/server/deployed",
         "/oec/0.9/" ++ "abc-123" ++ "/" ++ "/datacenter"]⟩ :=
  orgId_bootstrap_once dirAccountBody "abc-123" "/server/deployed" "/datacenter" (by decide)

/-- Claim C7 counterexample: `privateNet` is not boolean-decoded — the decoder
stores the raw findtext string, so the values `"1"` and `"FALSE"`, which the
claim both maps to the boolean false, decode to two different, non-boolean
field values. -/
theorem privateNet_raw_counterexample :
    (_to_network [] (networkElemPN "1")).map OpsourceNetwork.privateNet = some (some "1") ∧
    (_to_network [] (networkElemPN "FALSE")).map OpsourceNetwork.privateNet =
      some (some "FALSE") ∧
    (_to_network [] (networkElemPN "1")).map OpsourceNetwork.privateNet ≠
      (_to_network [] (networkElemPN "FALSE")).map OpsourceNetwork.privateNet := by
  decide

/-- Claim C7 (amended): on namespace-qualified elements, `multicast` decodes
to true exactly when its text equals the literal `"true"` (anything else,
including absence, gives false), a node's run-state is RUNNING exactly when
`isStarted` equals `"true"` and TERMINATED otherwise — but `privateNet` is not
boolean-decoded: the decoder carries the raw optional string through. -/
theorem bool_text_decode (el nd : XmlElem) (nspN nspS : String) (locs : List NodeLocation)
    (hN : el.tag.ns = some nspN) (hS : nd.tag.ns = some nspS) :
    (_to_network locs el).map OpsourceNetwork.multicast =
      some (textPath [⟨some nspN, "multicast"⟩] el == some "true") ∧
    (_to_network locs el).map OpsourceNetwork.privateNet =
      some (textPath [⟨some nspN, "privateNet"⟩] el) ∧
    (_to_node nd).map Node.state =
      some (if textPath [⟨some nspS, "isStarted"⟩] nd == some "true"
        then NodeState.RUNNING else NodeState.TERMINATED) := by
  rw [_to_network_eq locs el nspN hN, _to_node_eq nd nspS hS]
  exact ⟨rfl, rfl, rfl⟩

/-- Witness for the amended C7: a network element whose `multicast` text is
`"false"` and `privateNet` text is `"true"`, and a server element whose
`isStarted` text is `"TRUE"` (which is not `"true"`, hence TERMINATED). -/
theorem bool_text_decode_witness :
    ((_to_network [] (networkElemPN "true")).map OpsourceNetwork.multicast =
      some (textPath [⟨some NETWORK_NS, "multicast"⟩] (networkElemPN "true") == some "true") ∧
    (_to_network [] (networkElemPN "true")).map OpsourceNetwork.privateNet =
      some (textPath [⟨some NETWORK_NS, "privateNet"⟩] (networkElemPN "true")) ∧
    (_to_node (serverElemIS "TRUE")).map Node.state =
      some (if textPath [⟨some SERVER_NS, "isStarted"⟩] (serverElemIS "TRUE") == some "true"
        then NodeState.RUNNING else NodeState.TERMINATED)) ∧
    (_to_node (serverElemIS "TRUE")).map Node.state = some NodeState.TERMINATED ∧
    (_to_network [] (networkElemPN "true")).map OpsourceNetwork.multicast = some false :=
  ⟨bool_text_decode (networkElemPN "true") (serverElemIS "TRUE") NETWORK_NS SERVER_NS []
      rfl rfl,
   by decide, by decide⟩

/-- Claim C8 counterexample: a populated status child carrying an `updateTime`
sub-field decodes to a record whose `updateTime` is null — `_to_status` never
reads `updateTime` — contradicting the claim that every listed sub-field maps
to the corresponding record field. -/
theorem status_updateTime_not_mapped :
    textPath [⟨some SERVER_NS, "updateTime"⟩] (statusDocUnder SERVER_NS) =
      some "2011-01-02T10:11:12" ∧
    (_to_status (some (statusDocUnder SERVER_NS))).map OpsourceStatus.updateTime =
      some none := by
  decide

/-- Claim C8 (amended): an absent status element decodes to a record with
every field null (never a null reference); a populated, namespace-qualified
status element decodes with action, requestTime, userName, numberOfSteps, step
name/number/percentComplete and failureReason mapped from the corresponding
sub-fields, while updateTime is never populated. -/
theorem status_decode (el : XmlElem) (nsp : String) (h : el.tag.ns = some nsp) :
    _to_status none = some ({} : OpsourceStatus) ∧
    _to_status (some el) = some
      { action := textPath [⟨some nsp, "action"⟩] el,
        requestTime := textPath [⟨some nsp, "requestTime"⟩] el,
        userName := textPath [⟨some nsp, "userName"⟩] el,
        numberOfSteps := textPath [⟨some nsp, "numberOfSteps"⟩] el,
        updateTime := none,
        step_name := textPath [⟨some nsp, "step"⟩, ⟨some nsp, "name"⟩] el,
        step_number := textPath [⟨some nsp, "step"⟩, ⟨some nsp, "number"⟩] el,
        step_percentComplete := textPath [⟨some nsp, "step"⟩, ⟨some nsp, "percentComplete"⟩] el,
        failureReason := textPath [⟨some nsp, "failureReason"⟩] el } :=
  ⟨rfl, _to_status_some_eq el nsp h⟩

/-- Witness for the amended C8 at a fully populated status element. -/
theorem status_decode_witness :
    (_to_status none = some ({} : OpsourceStatus) ∧
    _to_status (some (statusDocUnder SERVER_NS)) = some
      { action := textPath [⟨some SERVER_NS, "action"⟩] (statusDocUnder SERVER_NS),
        requestTime := textPath [⟨some SERVER_NS, "requestTime"⟩] (statusDocUnder SERVER_NS),
        userName := textPath [⟨some SERVER_NS, "userName"⟩] (statusDocUnder SERVER_NS),
        numberOfSteps := textPath [⟨some SERVER_NS, "numberOfSteps"⟩] (statusDocUnder SERVER_NS),
        updateTime := none,
        step_name := textPath [⟨some SERVER_NS, "step"⟩, ⟨some SERVER_NS, "name"⟩]
          (statusDocUnder SERVER_NS),
        step_number := textPath [⟨some SERVER_NS, "step"⟩, ⟨some SERVER_NS, "number"⟩]
          (statusDocUnder SERVER_NS),
        step_percentComplete :=
          textPath [⟨some SERVER_NS, "step"⟩, ⟨some SERVER_NS, "percentComplete"⟩]
            (statusDocUnder SERVER_NS),
        failureReason := textPath [⟨some SERVER_NS, "failureReason"⟩]
          (statusDocUnder SERVER_NS) }) ∧
    (_to_status (some (statusDocUnder SERVER_NS))).map OpsourceStatus.step_name =
      some (some "SHUTDOWN_SERVER") :=
  ⟨status_decode (statusDocUnder SERVER_NS) SERVER_NS rfl, by decide⟩

/-- Claim C9 counterexample: a structurally identical status document under a
different namespace does not decode to all-null fields — the lookup namespace
is derived dynamically from the root tag, so the re-namespaced document
decodes to exactly the same populated record as the original. -/
theorem renamespaced_doc_decodes_same :
    _to_status (some (statusDocUnder NETWORK_NS)) =
      _to_status (some (statusDocUnder SERVER_NS)) ∧
    (_to_status (some (statusDocUnder NETWORK_NS))).map OpsourceStatus.action =
      some (some "RebootServer") ∧
    _to_status (some (statusDocUnder NETWORK_NS)) ≠ some ({} : OpsourceStatus) := by
  decide

/-- Claim C9 (amended): every child lookup is qualified with the namespace
derived dynamically from the root's own tag — `fixxpath` maps every step of a
dotted path into that namespace — and consequently there are no
cross-namespace matches: a document whose root is under one namespace but
whose children are not under it decodes to a record with all fields null. -/
theorem fixxpath_dynamic_namespace (e : XmlElem) (xpath : String) (nsp : String)
    (h : e.tag.ns = some nsp) (st : XmlElem) (hst : st.tag.ns = some nsp)
    (hch : ∀ c ∈ st.children, c.tag.ns ≠ some nsp) :
    fixxpath e xpath = some ((splitOnSlash xpath).map (fun n => ⟨some nsp, n⟩)) ∧
    (∀ t ∈ (splitOnSlash xpath).map (fun n => (⟨some nsp, n⟩ : Tag)), t.ns = some nsp) ∧
    _to_status (some st) = some ({} : OpsourceStatus) := by
  refine ⟨by simp [fixxpath, h], ?_, ?_⟩
  · intro t ht
    obtain ⟨n, _, hn⟩ := List.mem_map.mp ht
    rw [← hn]
  · have hnone : ∀ (nm : String) (ts : List Tag),
        findPath (⟨some nsp, nm⟩ :: ts) st = none := by
      intro nm ts
      refine findPath_cons_no_match (fun c hc hEq => hch c hc ?_)
      rw [hEq]
    rw [_to_status_some_eq st nsp hst]
    simp only [statusRecordOf, textPath, hnone]
    rfl

/-- Witness for the amended C9: the qualified path for `"step/name"` under the
server namespace, and the all-null decode of a status element whose root is
under the server namespace but whose children are under the network
namespace. -/
theorem fixxpath_dynamic_namespace_witness :
    fixxpath (statusDocUnder SERVER_NS) "step/name" =
      some [⟨some SERVER_NS, "step"⟩, ⟨some SERVER_NS, "name"⟩] ∧
    _to_status (some mixedStatusDoc) = some ({} : OpsourceStatus) := by
  have h := fixxpath_dynamic_namespace (statusDocUnder SERVER_NS) "step/name" SERVER_NS rfl
    mixedStatusDoc rfl (by decide)
  refine ⟨?_, h.2.2⟩
  rw [h.1]
  rfl

end Opsource
